import Mathlib

/-!
Verification of the document intake & classification pipeline of the
DocClassification_MMBB repository (src/api_client.py, src/main.py).

The Python source is shallowly embedded: pure computations become Lean
functions; calls into external collaborators (PyMuPDF rendering, OpenCV
measurements, Tesseract OCR, the Anthropic network client, Python's
json.loads) are modelled by explicit inputs carrying the collaborator's
result; exceptions that the source catches become explicit error branches;
time.sleep is modelled by accumulating the requested durations in the call
trace.  Machine floats of the measurement pipeline are modelled as rationals
(only threshold comparisons matter to the control flow under study).
-/

namespace DocClass

/-- A JSON value, modelling the Python objects produced by json.loads. -/
inductive Json where
  | null : Json
  | bool (b : Bool) : Json
  | num (n : Int) : Json
  | str (s : String) : Json
  | arr (elems : List Json) : Json
  | obj (fields : List (String × Json)) : Json

/-- Dictionary lookup, modelling d.get(key) on a decoded JSON object. -/
def jget (fields : List (String × Json)) (key : String) : Option Json :=
  match fields.find? (fun kv => kv.1 == key) with
  | some kv => some kv.2
  | none => none

mutual

/-- Serialization of a JSON value, modelling json.dumps with its default
separators (no string escaping is needed for the values in scope). -/
def dumps : Json → String
  | Json.null => "null"
  | Json.bool true => "true"
  | Json.bool false => "false"
  | Json.num n => toString n
  | Json.str s => "\"" ++ s ++ "\""
  | Json.arr xs => "[" ++ dumpsList xs ++ "]"
  | Json.obj fs => "\x7b" ++ dumpsFields fs ++ "\x7d"

/-- Serialize the elements of a JSON array, comma separated. -/
def dumpsList : List Json → String
  | [] => ""
  | [x] => dumps x
  | x :: xs => dumps x ++ ", " ++ dumpsList xs

/-- Serialize the fields of a JSON object, comma separated. -/
def dumpsFields : List (String × Json) → String
  | [] => ""
  | [kv] => "\"" ++ kv.1 ++ "\": " ++ dumps kv.2
  | kv :: kvs => "\"" ++ kv.1 ++ "\": " ++ dumps kv.2 ++ ", " ++ dumpsFields kvs

end

/-- Python truthiness of a JSON value (bool(x)). -/
def jtruthy : Json → Bool
  | Json.null => false
  | Json.bool b => b
  | Json.num n => n != 0
  | Json.str s => s != ""
  | Json.arr xs => !xs.isEmpty
  | Json.obj fs => !fs.isEmpty

/-- Python truthiness of an optional JSON value (None is falsy). -/
def optTruthy : Option Json → Bool
  | none => false
  | some j => jtruthy j

/-- Is a character in the range removed by the source's sanitization regex
on content text, namely [\x00-\x1f\x7f-\x9f] (C0 controls, DEL, C1 controls)? -/
def is_control_char (c : Char) : Bool :=
  c.toNat ≤ 0x1f || (0x7f ≤ c.toNat && c.toNat ≤ 0x9f)

/-- re.sub applied in parse_api_response: delete every character matched by
[\x00-\x1f\x7f-\x9f] from the content text. -/
def strip_controls (s : String) : String :=
  String.mk (s.toList.filter (fun c => !is_control_char c))

/--
parse_api_response (api_client.py lines 362-390).  The envelope is received
already decoded to a `Json` value (the source receives model_dump_json()
output and immediately json.loads it; that round trip through the external
serializer is the identity on the envelope).  The inner json.loads applied
to the content text is the external Python parser, passed in as `loads`
(none models a json.JSONDecodeError).  Every except-caught path of the
source becomes an explicit error branch returning the pair
(None, "Failed to parse API response: <cause>").
-/
def parse_api_response (loads : String → Option Json) (response_data : Json) :
    Option Json × Option String :=
  match response_data with
  | Json.obj fields =>
    match jget fields "content" with
    | some (Json.arr (first :: _)) =>
      match first with
      | Json.obj ffields =>
        let content_text : Option String :=
          match jget ffields "text" with
          | some (Json.str s) => some s
          | none => some ""
          | some _ => none
        match content_text with
        | none => (none, some "Failed to parse API response: expected string or bytes-like object")
        | some text =>
          let clean_content_text := strip_controls text
          match loads clean_content_text with
          | none => (none, some "Failed to parse API response: Expecting value")
          | some content_data =>
            match content_data with
            | Json.obj cfields => (jget cfields "ContentType", some (dumps content_data))
            | _ => (none, some "Failed to parse API response: object has no attribute get")
      | _ => (none, some "Failed to parse API response: object has no attribute get")
    | some _ => (none, some "Content field missing or improperly formatted")
    | none => (none, some "Content field missing or improperly formatted")
  | _ => (none, some "Failed to parse API response: argument of type is not iterable")

/-- exponential_backoff (api_client.py lines 207-222). -/
def exponential_backoff (retry_number : Nat) : Nat :=
  let base_delay := 6
  let factor := 2
  let max_delay := 60
  min max_delay (base_delay * factor ^ retry_number)

/--
handle_api_error (api_client.py lines 344-360).  The source sleeps for the
computed backoff and then reports whether to keep retrying; the sleep is
modelled by returning the slept duration as the first component, which the
caller accumulates into its trace.
-/
def handle_api_error (attempt : Nat) : Nat × Bool :=
  let wait_time := exponential_backoff attempt
  (wait_time, if attempt ≥ 4 then false else true)

/--
A rendered page image.  The pixel buffer itself lives in the external
imaging libraries; the model carries the externally measured quantities the
source's control flow consumes: the Laplacian-variance focus measure and
histogram-spread coefficient computed by OpenCV, the raw per-token
confidence values reported by Tesseract (strings, with sentinel "-1"), and
the result of base64 encoding (none models an encoding failure, which the
source maps to a null data entry).
-/
structure Page where
  focus_measure : ℚ
  hist_spread : ℚ
  ocr_conf : List String
  b64 : Option String
deriving DecidableEq

/-- Lowercase one ASCII character, modelling Python's str.lower per
character. -/
def lowerChar (c : Char) : Char :=
  if 'A' ≤ c ∧ c ≤ 'Z' then Char.ofNat (c.toNat + 32) else c

/-- Python's str.lower on the ASCII strings in scope. -/
def str_lower (s : String) : String :=
  String.mk (s.toList.map lowerChar)

/-- Python's str.endswith. -/
def str_ends_with (s tail : String) : Bool :=
  List.isSuffixOf tail.toList s.toList

/-- Decimal digits to the natural number they denote. -/
def digits_to_nat (cs : List Char) : Nat :=
  cs.foldl (fun n c => n * 10 + (c.toNat - 48)) 0

/-- Python int() on the numeric confidence strings produced by the OCR
collaborator (an optional leading minus sign followed by decimal digits). -/
def pyInt (s : String) : Int :=
  match s.toList with
  | '-' :: rest => -(Int.ofNat (digits_to_nat rest))
  | cs => Int.ofNat (digits_to_nat cs)

/-- check_focus_measure (api_client.py lines 27-39): Good iff the Laplacian
variance is at least 100. -/
def check_focus_measure (img : Page) : String :=
  if 100 ≤ img.focus_measure then "Good" else "Bad"

/-- check_histogram_spread (api_client.py lines 41-58): Good iff the
coefficient of variation of the normalized histogram exceeds 0.5. -/
def check_histogram_spread (img : Page) : String :=
  if (1 : ℚ) / 2 < img.hist_spread then "Good" else "Bad"

/-- check_ocr_confidence (api_client.py lines 60-78): drop tokens whose raw
confidence equals the string "-1", average the remainder (0 when the list is
empty), Good iff the average is at least 10. -/
def check_ocr_confidence (img : Page) : String :=
  let confidences := (img.ocr_conf.filter (fun conf => conf != "-1")).map pyInt
  let average_confidence : ℚ :=
    if confidences.isEmpty then 0
    else ((confidences.sum : ℚ)) / (confidences.length : ℚ)
  if 10 ≤ average_confidence then "Good" else "Bad"

/-- check_image_quality (api_client.py lines 80-109): combine the three
sub-checks; any Bad makes the page Bad. -/
def check_image_quality (img : Page) : String :=
  let focus := check_focus_measure img
  let histogram := check_histogram_spread img
  let ocr_confidence := check_ocr_confidence img
  let results := [focus, histogram, ocr_confidence]
  if "Bad" ∈ results then "Bad" else "Good"

/--
convert_pdf_to_images (api_client.py lines 111-150).  A PDF input is
modelled as some list of its rendered pages when the try block succeeds, and
none when any exception occurs inside it (corrupt file, decode error, save
failure) — the source catches the exception and returns the empty list.
Rendering the first num_pages pages in order is List.take.
-/
def convert_pdf_to_images (pdf : Option (List Page)) (max_pages : Option Nat) : List Page :=
  match pdf with
  | none => []
  | some doc =>
    let total_pages := doc.length
    let num_pages :=
      match max_pages with
      | none => total_pages
      | some m => min total_pages m
    doc.take num_pages

/-- One entry of the payload the source builds for a Good page: the constant
envelope fields are elided, keeping the media type and the base64 data
(None when encode_image_to_base64 failed). -/
structure ImageEntry where
  media_type : String
  data : Option String
deriving DecidableEq

/-- encode_image_to_base64 wrapped into the payload entry built at
api_client.py line 254. -/
def encode_entry (img : Page) : ImageEntry :=
  ⟨"image/jpeg", img.b64⟩

/-- The union-typed return of process_file_for_api: a list of payload
entries, or a bare status string. -/
inductive ProcessResult where
  | imageList (entries : List ImageEntry) : ProcessResult
  | str (s : String) : ProcessResult
deriving DecidableEq

/-- Python truthiness of a ProcessResult: the empty list and the empty
string are falsy. -/
def processFalsy : ProcessResult → Bool
  | ProcessResult.imageList xs => xs.isEmpty
  | ProcessResult.str s => s == ""

/-- get_media_type (api_client.py lines 175-192). -/
def get_media_type (image_path : String) : Option String :=
  let lower := str_lower image_path
  if str_ends_with lower ".jpg" || str_ends_with lower ".jpeg" then some "image/jpeg"
  else if str_ends_with lower ".png" then some "image/png"
  else if str_ends_with lower ".pdf" then some "application/pdf"
  else none

/-- The per-page loop of process_file_for_api (api_client.py lines 246-254):
append a payload entry for each Good page in order, count the Bad pages. -/
def quality_loop : List Page → List ImageEntry × Nat
  | [] => ([], 0)
  | img :: rest =>
    let (image_data, poor_quality_count) := quality_loop rest
    if check_image_quality img = "Bad" then (image_data, poor_quality_count + 1)
    else (encode_entry img :: image_data, poor_quality_count)

/--
An input document.  path drives get_media_type; pdf carries the rendering
collaborator's view of the document when the path names a PDF (see
convert_pdf_to_images); image carries the decoded raster page when the path
names a JPEG/PNG, none modelling the exception path of the source's
try block (Image.open or save failing).
-/
structure InputFile where
  path : String
  pdf : Option (List Page)
  image : Option Page

/-- process_file_for_api (api_client.py lines 224-276). -/
def process_file_for_api (file : InputFile) : ProcessResult :=
  let media_type := get_media_type file.path
  let max_pages := 4
  if media_type = some "application/pdf" then
    let images := convert_pdf_to_images file.pdf (some max_pages)
    let images := images.take max_pages
    let (image_data, poor_quality_count) := quality_loop images
    if poor_quality_count = images.length then
      ProcessResult.str "Unclassified - Poor image quality"
    else ProcessResult.imageList image_data
  else if media_type = some "image/jpeg" ∨ media_type = some "image/png" then
    match file.image with
    | none => ProcessResult.imageList []
    | some img =>
      if check_image_quality img = "Bad" then
        ProcessResult.str "Unclassified - Poor image quality"
      else ProcessResult.imageList [encode_entry img]
  else ProcessResult.imageList []

/--
Outcome of one attempt of client.messages.create, as seen by the except
clauses of communicate_with_api: a successful response (carrying the decoded
envelope), an exception of the retryable classes (RateLimitError, APIError),
or an exception of any other class.
-/
inductive RemoteResult where
  | success (envelope : Json) : RemoteResult
  | apiError (msg : String) : RemoteResult
  | otherError (msg : String) : RemoteResult

/-- The observable result of one communicate_with_api call: the returned
(classification, response) pair, the number of remote attempts actually
made, and the total duration handed to time.sleep. -/
structure CallTrace where
  classification : Option Json
  response : Option String
  attempts : Nat
  total_sleep : Nat

/--
The for-loop body of communicate_with_api (api_client.py lines 295-315),
iterating over the remaining attempt numbers of range(retry_limit).
Falling off the end of the loop is Python's implicit return None, modelled
as a trace with no classification and no response.
-/
def communicate_go (loads : String → Option Json) (remote : Nat → RemoteResult) :
    List Nat → Nat → Nat → CallTrace
  | [], made, slept => ⟨none, none, made, slept⟩
  | attempt :: rest, made, slept =>
    match remote attempt with
    | RemoteResult.success envelope =>
      let (classification, response) := parse_api_response loads envelope
      ⟨classification, response, made + 1, slept⟩
    | RemoteResult.apiError _ =>
      let hw := handle_api_error attempt
      if hw.2 then communicate_go loads remote rest (made + 1) (slept + hw.1)
      else ⟨none, some "API communication failed after maximum retries", made + 1, slept + hw.1⟩
    | RemoteResult.otherError _ =>
      ⟨none, some "Unexpected error in API communication", made + 1, slept⟩

/-- communicate_with_api (api_client.py lines 279-315).  image_data is the
payload the source sends with every attempt; remote gives the outcome of the
attempt with each index. -/
def communicate_with_api (image_data : List ImageEntry) (loads : String → Option Json)
    (remote : Nat → RemoteResult) (retry_limit : Nat) : CallTrace :=
  communicate_go loads remote (List.range retry_limit) 0 0

/-- classify_file (api_client.py lines 317-342), instrumented with the
number of remote attempts made (0 when communicate_with_api is never
reached). -/
def classify_file (loads : String → Option Json) (file : InputFile)
    (remote : Nat → RemoteResult) : (Option Json × Option String) × Nat :=
  let image_data := process_file_for_api file
  if processFalsy image_data then
    ((none, some "Failed to process image data or unsupported file type"), 0)
  else if image_data = ProcessResult.str "Unclassified - Poor image quality" then
    ((some (Json.str "Unclassified - Poor image quality"), none), 0)
  else
    let entries := match image_data with
      | ProcessResult.imageList xs => xs
      | ProcessResult.str _ => []
    let t := communicate_with_api entries loads remote 5
    if optTruthy t.classification then ((t.classification, t.response), t.attempts)
    else ((none, some "API communication failed or no valid response"), t.attempts)

/-! The per-file decision logic of main.py (process_files and rename_file). -/

/-- The six recognized labels, lowercase (main.py line 160). -/
def valid_classifications : List String :=
  ["rental_contract", "mortgage_contract", "contract_payment",
   "teleworking_agreement", "repayment_table", "unclassified"]

/-- The extensions process_files accepts (main.py line 158). -/
def allowed_extensions : List String :=
  [".png", ".jpg", ".jpeg", ".pdf"]

/-- Contiguous-substring containment on character lists, modelling Python's
needle in haystack test on strings. -/
def list_contains_sub : List Char → List Char → Bool
  | hay, needle =>
    needle.isPrefixOf hay ||
      match hay with
      | [] => false
      | _ :: t => list_contains_sub t needle

/-- Python's substring containment needle in hay. -/
def str_contains_sub (hay needle : String) : Bool :=
  list_contains_sub hay.toList needle.toList

/-- Split a character list at every occurrence of the separator. -/
def split_on_char (sep : Char) (cs : List Char) : List (List Char) :=
  cs.foldr
    (fun c acc =>
      match acc with
      | [] => [[c]]
      | cur :: rest => if c = sep then [] :: cur :: rest else (c :: cur) :: rest)
    [[]]

/-- os.path.basename for forward-slash paths. -/
def basename (p : String) : String :=
  String.mk ((split_on_char '/' p.toList).getLastD [])

/-- The extension part of os.path.splitext: the suffix from the last dot,
empty when the name has no dot or only a leading dot. -/
def splitext_ext (name : String) : String :=
  let cs := name.toList
  let extRev := cs.reverse.takeWhile (fun c => c ≠ '.')
  if extRev.length = cs.length then ""
  else
    let pos := cs.length - 1 - extRev.length
    if pos = 0 then "" else String.mk (cs.drop pos)

/-- The name part of os.path.splitext (everything before the extension). -/
def splitext_root (name : String) : String :=
  let ext := splitext_ext name
  String.mk (name.toList.take (name.toList.length - ext.toList.length))

/-- What process_files does with one file (status updates aside). -/
inductive FileAction where
  | skipped (status : String) : FileAction
  | completed (new_name : String) : FileAction
deriving DecidableEq

/-- rename_file (main.py lines 41-69), collision-free case: the proposed new
file name is the classification followed by the original extension. -/
def rename_target (file_path : String) (classification : String) : String :=
  let old_file_name := basename file_path
  let ext := splitext_ext old_file_name
  classification ++ ext

/--
The body of the per-file loop of process_files (main.py lines 162-194),
given the (classification, api_response) pair returned by classify_file for
the file.  Produces the action taken: a skip with its status string, or a
completion with the renamed file's name.
-/
def process_one_file (file_path : String)
    (classify_result : Option String × Option String) : FileAction :=
  let file_name := basename file_path
  let extension := str_lower (splitext_ext file_name)
  let already_classified :=
    valid_classifications.any (fun c => str_contains_sub (str_lower file_name) c)
  if already_classified ||
      (file_name == "Housing_Refund_Request.pdf" || file_name == "Housing_Refund_Modification.pdf") ||
      !(allowed_extensions.contains extension) then
    let reason :=
      if already_classified then "Already classified"
      else if file_name == "Housing_Refund_Request.pdf" || file_name == "Housing_Refund_Modification.pdf" then
        "Not allowed to change"
      else "Unsupported file type"
    FileAction.skipped ("Skipped - " ++ reason)
  else
    let (classification, api_response) := classify_result
    if classification = some "Unclassified - Poor image quality" ∧ api_response = none then
      FileAction.completed (rename_target file_path "Unclassified")
    else
      match classification with
      | none => FileAction.skipped "Skipped - Invalid or no classification"
      | some c =>
        if !(valid_classifications.contains (str_lower c)) then
          FileAction.skipped "Skipped - Invalid or no classification"
        else FileAction.completed (rename_target file_path c)

/-- The rendered page sequence of a document, as the spec's Renderer
produces it: the pages the source feeds into the quality loop, composed
from get_media_type and convert_pdf_to_images exactly as
process_file_for_api does. -/
def rendered_pages (file : InputFile) : List Page :=
  let media_type := get_media_type file.path
  if media_type = some "application/pdf" then
    (convert_pdf_to_images file.pdf (some 4)).take 4
  else if media_type = some "image/jpeg" ∨ media_type = some "image/png" then
    match file.image with
    | some img => [img]
    | none => []
  else []

/-- A response envelope whose first content block carries the given text,
the shape produced by the remote classification service. -/
def content_envelope (s : String) : Json :=
  Json.obj [("content", Json.arr [Json.obj [("text", Json.str s)]])]

/-! Helper lemmas. -/

/-- If every page of the list is judged Bad, the per-page loop collects no
payload entries and counts every page. -/
theorem quality_loop_all_bad (l : List Page)
    (h : ∀ p ∈ l, check_image_quality p = "Bad") :
    quality_loop l = ([], l.length) := by
  induction l with
  | nil => rfl
  | cons img rest ih =>
    have hrest : quality_loop rest = ([], rest.length) :=
      ih (fun p hp => h p (List.mem_cons_of_mem _ hp))
    simp [quality_loop, hrest, h img (List.mem_cons_self _ _)]

/-- When every one of the five attempts fails with a retryable error, the
call returns the retries-exhausted diagnostic after 5 attempts, having slept
6+12+24+48+60 = 150 seconds in total. -/
theorem communicate_all_retryable (loads : String → Option Json)
    (image_data : List ImageEntry) (remote : Nat → RemoteResult)
    (h : ∀ n, n < 5 → ∃ m, remote n = RemoteResult.apiError m) :
    communicate_with_api image_data loads remote 5 =
      ⟨none, some "API communication failed after maximum retries", 5, 150⟩ := by
  obtain ⟨m0, h0⟩ := h 0 (by norm_num)
  obtain ⟨m1, h1⟩ := h 1 (by norm_num)
  obtain ⟨m2, h2⟩ := h 2 (by norm_num)
  obtain ⟨m3, h3⟩ := h 3 (by norm_num)
  obtain ⟨m4, h4⟩ := h 4 (by norm_num)
  have hr : List.range 5 = [0, 1, 2, 3, 4] := rfl
  simp [communicate_with_api, hr, communicate_go, h0, h1, h2, h3, h4,
    handle_api_error, exponential_backoff]

/-- A page whose focus sub-check fails is judged Bad overall. -/
theorem quality_bad_of_focus (img : Page) (h : check_focus_measure img = "Bad") :
    check_image_quality img = "Bad" := by
  simp [check_image_quality, h]

/-- Stripping control characters is idempotent. -/
theorem strip_controls_idem (s : String) :
    strip_controls (strip_controls s) = strip_controls s := by
  simp [strip_controls, List.filter_filter]

/-! Theorems settling the claims. -/

/-- C4: the computed backoff delay at attempt n equals min(60, 6 * 2^n);
consequently the delay sequence is non-decreasing, never exceeds 60 seconds,
and takes the values 6, 12, 24 at attempts 0, 1, 2 and the cap 60 at
attempt 5. -/
theorem backoff_formula_monotone_capped :
    (∀ n, exponential_backoff n = min 60 (6 * 2 ^ n)) ∧
    (∀ n, exponential_backoff n ≤ exponential_backoff (n + 1)) ∧
    (∀ n, exponential_backoff n ≤ 60) ∧
    exponential_backoff 0 = 6 ∧ exponential_backoff 1 = 12 ∧
    exponential_backoff 2 = 24 ∧ exponential_backoff 5 = 60 := by
  refine ⟨fun n => rfl, fun n => ?_, fun n => ?_, rfl, rfl, rfl, rfl⟩
  · have hpow : 6 * 2 ^ n ≤ 6 * 2 ^ (n + 1) :=
      Nat.mul_le_mul_left 6 (Nat.pow_le_pow_right (by norm_num) (Nat.le_succ n))
    exact min_le_min (Nat.le_refl 60) hpow
  · exact Nat.min_le_left 60 (6 * 2 ^ n)

/-- C2: when every remote attempt fails with a retryable (rate-limit or API)
error, communicate_with_api makes exactly 5 attempts, then returns a failure
whose diagnostic is "API communication failed after maximum retries",
distinct from the fatal-error diagnostic, without raising. -/
theorem retries_exhausted_after_five_attempts (loads : String → Option Json)
    (image_data : List ImageEntry) (remote : Nat → RemoteResult)
    (h : ∀ n, n < 5 → ∃ m, remote n = RemoteResult.apiError m) :
    (communicate_with_api image_data loads remote 5).classification = none ∧
    (communicate_with_api image_data loads remote 5).response =
      some "API communication failed after maximum retries" ∧
    (communicate_with_api image_data loads remote 5).attempts = 5 ∧
    (communicate_with_api image_data loads remote 5).response ≠
      some "Unexpected error in API communication" := by
  rw [communicate_all_retryable loads image_data remote h]
  refine ⟨rfl, rfl, rfl, by simp⟩

/-- C2 witness: a remote that is rate limited on every attempt. -/
theorem retries_exhausted_witness :
    (communicate_with_api [] (fun _ => none) (fun _ => RemoteResult.apiError "rate limited") 5).response =
      some "API communication failed after maximum retries" ∧
    (communicate_with_api [] (fun _ => none) (fun _ => RemoteResult.apiError "rate limited") 5).attempts = 5 := by
  have h := retries_exhausted_after_five_attempts (fun _ => none) []
    (fun _ => RemoteResult.apiError "rate limited") (fun n _ => ⟨"rate limited", rfl⟩)
  exact ⟨h.2.1, h.2.2.1⟩

/-- C3 counterexample: two fatal failures with different underlying causes
produce the identical fixed diagnostic, which mentions neither cause — the
underlying cause is not preserved in the returned diagnostic (it is only
logged). -/
theorem fatal_diagnostic_drops_cause :
    (communicate_with_api [] (fun _ => none)
        (fun _ => RemoteResult.otherError "auth failure: invalid api key") 5).response =
      (communicate_with_api [] (fun _ => none)
        (fun _ => RemoteResult.otherError "malformed request body") 5).response ∧
    (communicate_with_api [] (fun _ => none)
        (fun _ => RemoteResult.otherError "auth failure: invalid api key") 5).response =
      some "Unexpected error in API communication" :=
  ⟨rfl, rfl⟩

/-- C3 amended: on a remote failure whose exception class is not retryable,
communicate_with_api performs no retry and returns immediately after the
first failure (one attempt, no backoff sleep) with the fixed diagnostic
"Unexpected error in API communication"; the underlying cause is logged but
not included in the returned diagnostic. -/
theorem fatal_error_no_retry (loads : String → Option Json)
    (image_data : List ImageEntry) (remote : Nat → RemoteResult) (m : String)
    (h : remote 0 = RemoteResult.otherError m) :
    communicate_with_api image_data loads remote 5 =
      ⟨none, some "Unexpected error in API communication", 1, 0⟩ := by
  have hr : List.range 5 = [0, 1, 2, 3, 4] := rfl
  simp [communicate_with_api, hr, communicate_go, h]

/-- C3 witness: a remote whose first attempt raises a non-retryable error. -/
theorem fatal_error_no_retry_witness :
    communicate_with_api [] (fun _ => none)
        (fun _ => RemoteResult.otherError "auth failure") 5 =
      ⟨none, some "Unexpected error in API communication", 1, 0⟩ :=
  fatal_error_no_retry (fun _ => none) [] (fun _ => RemoteResult.otherError "auth failure")
    "auth failure" rfl

/-- C10: handle_api_error sleeps for the full computed backoff delay before
deciding whether to retry — at attempt 4 (the 5th failed attempt) it still
sleeps the capped 60 seconds and only then reports no-more-retries, so the
total slept time of an exhausted call includes the delays of all five
attempts. -/
theorem sleep_before_retry_decision :
    (∀ n, (handle_api_error n).1 = exponential_backoff n) ∧
    handle_api_error 4 = (60, false) ∧
    ∀ (loads : String → Option Json) (image_data : List ImageEntry)
      (remote : Nat → RemoteResult),
      (∀ n, n < 5 → ∃ m, remote n = RemoteResult.apiError m) →
      (communicate_with_api image_data loads remote 5).total_sleep =
        exponential_backoff 0 + exponential_backoff 1 + exponential_backoff 2 +
          exponential_backoff 3 + exponential_backoff 4 := by
  refine ⟨fun n => rfl, rfl, fun loads image_data remote h => ?_⟩
  rw [communicate_all_retryable loads image_data remote h]
  rfl

/-- C10 witness: a remote that is rate limited on every attempt. -/
theorem sleep_before_retry_decision_witness :
    (communicate_with_api [] (fun _ => none) (fun _ => RemoteResult.apiError "429") 5).total_sleep =
      exponential_backoff 0 + exponential_backoff 1 + exponential_backoff 2 +
        exponential_backoff 3 + exponential_backoff 4 :=
  sleep_before_retry_decision.2.2 (fun _ => none) []
    (fun _ => RemoteResult.apiError "429") (fun n _ => ⟨"429", rfl⟩)

/-- C6: for a PDF with N pages, rendering with the cap of 4 returns exactly
min(N, 4) page images, they are the first pages in original order, and no
page beyond index 3 appears in the result. -/
theorem page_cap_min_four (pages : List Page) :
    (convert_pdf_to_images (some pages) (some 4)).length = min pages.length 4 ∧
    convert_pdf_to_images (some pages) (some 4) = pages.take 4 ∧
    ∀ i, i < min pages.length 4 →
      (convert_pdf_to_images (some pages) (some 4))[i]? = pages[i]? := by
  have hdef : convert_pdf_to_images (some pages) (some 4) =
      pages.take (min pages.length 4) := rfl
  have htake : pages.take (min pages.length 4) = pages.take 4 := by
    rw [List.take_eq_take]
    omega
  refine ⟨?_, by rw [hdef, htake], fun i hi => ?_⟩
  · rw [hdef, htake, List.length_take]
    omega
  · rw [hdef, htake]
    exact List.getElem?_take_of_lt (by omega)

/-- C6 witness: a five-page document renders to its first four pages. -/
theorem page_cap_min_four_witness :
    (convert_pdf_to_images
        (some [⟨1, 1, [], none⟩, ⟨2, 1, [], none⟩, ⟨3, 1, [], none⟩,
               ⟨4, 1, [], none⟩, ⟨5, 1, [], none⟩]) (some 4))[0]? =
      ([⟨1, 1, [], none⟩, ⟨2, 1, [], none⟩, ⟨3, 1, [], none⟩,
        ⟨4, 1, [], none⟩, ⟨5, 1, [], none⟩] : List Page)[0]? :=
  (page_cap_min_four
      [⟨1, 1, [], none⟩, ⟨2, 1, [], none⟩, ⟨3, 1, [], none⟩,
       ⟨4, 1, [], none⟩, ⟨5, 1, [], none⟩]).2.2 0 (by decide)

/-- C7: the overall quality verdict is the logical AND of the three
sub-checks — any Bad sub-verdict makes check_image_quality return "Bad",
and three Good sub-verdicts make it return "Good". -/
theorem quality_and_rule (img : Page) :
    ((check_focus_measure img = "Bad" ∨ check_histogram_spread img = "Bad" ∨
        check_ocr_confidence img = "Bad") → check_image_quality img = "Bad") ∧
    (check_focus_measure img = "Good" → check_histogram_spread img = "Good" →
      check_ocr_confidence img = "Good" → check_image_quality img = "Good") := by
  constructor
  · intro h
    have hmem : "Bad" ∈ [check_focus_measure img, check_histogram_spread img,
        check_ocr_confidence img] := by
      rcases h with h | h | h <;> simp [h]
    simp [check_image_quality, hmem]
  · intro h1 h2 h3
    simp [check_image_quality, h1, h2, h3]

/-- C7 witness: a blurred page fails, a sharp legible page passes. -/
theorem quality_and_rule_witness :
    check_image_quality ⟨0, 0, [], none⟩ = "Bad" ∧
    check_image_quality ⟨100, 1, ["50"], none⟩ = "Good" :=
  ⟨(quality_and_rule ⟨0, 0, [], none⟩).1 (Or.inl (by decide)),
   (quality_and_rule ⟨100, 1, ["50"], none⟩).2 (by decide)
     (by norm_num [check_histogram_spread])
     (by
       have h1 : ((["50"] : List String).filter (fun conf => conf != "-1")).map pyInt =
           [50] := by decide
       norm_num [check_ocr_confidence, h1])⟩

/-- C1 evaluation at the failing input: for a PDF whose rendering yields
zero pages (opening fails, or the document has zero pages), classify_file
returns the poor-image-quality outcome — classification
"Unclassified - Poor image quality" with a null diagnostic — instead of the
null classification with a diagnostic that the claim (and the
process_file_for_api docstring, which promises an empty list when
processing fails) requires; the remote client is still never invoked
(0 attempts). -/
theorem zero_pages_poor_quality_eval (loads : String → Option Json)
    (remote : Nat → RemoteResult) :
    classify_file loads ⟨"corrupt.pdf", none, none⟩ remote =
      ((some (Json.str "Unclassified - Poor image quality"), none), 0) ∧
    classify_file loads ⟨"empty.pdf", some [], none⟩ remote =
      ((some (Json.str "Unclassified - Poor image quality"), none), 0) :=
  ⟨rfl, rfl⟩

/-- C5: when the rendered page sequence is non-empty and every rendered page
is assessed Bad, classify_file returns the poor-image-quality terminal
outcome and the remote client is invoked zero times. -/
theorem all_bad_pages_short_circuit (loads : String → Option Json)
    (remote : Nat → RemoteResult) (file : InputFile)
    (hne : rendered_pages file ≠ [])
    (hbad : ∀ p ∈ rendered_pages file, check_image_quality p = "Bad") :
    classify_file loads file remote =
      ((some (Json.str "Unclassified - Poor image quality"), none), 0) := by
  have hproc : process_file_for_api file =
      ProcessResult.str "Unclassified - Poor image quality" := by
    by_cases h1 : get_media_type file.path = some "application/pdf"
    · have hr : rendered_pages file = (convert_pdf_to_images file.pdf (some 4)).take 4 := by
        simp [rendered_pages, h1]
      rw [hr] at hbad
      have hloop := quality_loop_all_bad _ hbad
      simp [process_file_for_api, h1, hloop]
    · by_cases h2 : get_media_type file.path = some "image/jpeg" ∨
          get_media_type file.path = some "image/png"
      · cases himg : file.image with
        | none =>
          have : rendered_pages file = [] := by simp [rendered_pages, h1, h2, himg]
          exact absurd this hne
        | some img =>
          have hr : rendered_pages file = [img] := by simp [rendered_pages, h1, h2, himg]
          rw [hr] at hbad
          have hb := hbad img (List.mem_singleton_self img)
          simp [process_file_for_api, h1, h2, himg, hb]
      · have : rendered_pages file = [] := by simp [rendered_pages, h1, h2]
        exact absurd this hne
  simp [classify_file, hproc, processFalsy]

/-- C5 witness: a one-page PDF whose page fails every sub-check. -/
theorem all_bad_pages_short_circuit_witness :
    classify_file (fun _ => none) ⟨"scan.pdf", some [⟨0, 0, [], none⟩], none⟩
        (fun _ => RemoteResult.apiError "429") =
      ((some (Json.str "Unclassified - Poor image quality"), none), 0) :=
  all_bad_pages_short_circuit (fun _ => none) (fun _ => RemoteResult.apiError "429")
    ⟨"scan.pdf", some [⟨0, 0, [], none⟩], none⟩ (by decide)
    (by
      intro p hp
      have hr : rendered_pages ⟨"scan.pdf", some [⟨0, 0, [], none⟩], none⟩ =
          [⟨0, 0, [], none⟩] := by decide
      rw [hr, List.mem_singleton] at hp
      subst hp
      exact quality_bad_of_focus _ (by decide))

/-- C8: when the extracted content text is not valid JSON, or the envelope
lacks a well-formed content field, parse_api_response returns a failure pair
with a null label and a non-null diagnostic (it never raises), and the
content text is control-character-stripped before parsing (the result only
depends on the stripped text). -/
theorem parse_failure_isolation (loads : String → Option Json) (s : String)
    (fields : List (String × Json))
    (hbad : loads (strip_controls s) = none)
    (hnoc : jget fields "content" = none) :
    parse_api_response loads (content_envelope s) =
      (none, some "Failed to parse API response: Expecting value") ∧
    parse_api_response loads (Json.obj fields) =
      (none, some "Content field missing or improperly formatted") ∧
    ∀ t : String, parse_api_response loads (content_envelope t) =
      parse_api_response loads (content_envelope (strip_controls t)) := by
  have key : ∀ u : String, parse_api_response loads (content_envelope u) =
      (match loads (strip_controls u) with
       | none => (none, some "Failed to parse API response: Expecting value")
       | some content_data =>
         match content_data with
         | Json.obj cfields => (jget cfields "ContentType", some (dumps content_data))
         | _ => (none, some "Failed to parse API response: object has no attribute get")) :=
    fun u => rfl
  refine ⟨by rw [key s, hbad], ?_, fun t => by rw [key t, key (strip_controls t), strip_controls_idem]⟩
  have key2 : parse_api_response loads (Json.obj fields) =
      (match jget fields "content" with
       | some (Json.arr (first :: rest)) =>
         match first with
         | Json.obj ffields =>
           (match (match jget ffields "text" with
                   | some (Json.str u) => some u
                   | none => some ""
                   | some _ => none) with
            | none => (none, some "Failed to parse API response: expected string or bytes-like object")
            | some text =>
              match loads (strip_controls text) with
              | none => (none, some "Failed to parse API response: Expecting value")
              | some content_data =>
                match content_data with
                | Json.obj cfields => (jget cfields "ContentType", some (dumps content_data))
                | _ => (none, some "Failed to parse API response: object has no attribute get"))
         | _ => (none, some "Failed to parse API response: object has no attribute get")
       | some _ => (none, some "Content field missing or improperly formatted")
       | none => (none, some "Content field missing or improperly formatted")) := rfl
  rw [key2, hnoc]

/-- C8 witness: a service reply whose content text is rejected by the JSON
parser, and an envelope with no content field. -/
theorem parse_failure_isolation_witness :
    parse_api_response (fun _ => none) (content_envelope "not valid json") =
      (none, some "Failed to parse API response: Expecting value") :=
  (parse_failure_isolation (fun _ => none) "not valid json"
    [("id", Json.str "msg_01")] rfl rfl).1

/-- C9 counterexample: the case variants "Contract_Payment" and
"contract_payment" are both accepted but are NOT normalized to one canonical
value — the renamed files differ — and an unrecognized label produces
exactly the same action as a missing classification (service failure), so
the two are not distinct. -/
theorem label_case_not_normalized :
    process_one_file "scan.pdf" (some "Contract_Payment", some "raw") ≠
      process_one_file "scan.pdf" (some "contract_payment", some "raw") ∧
    process_one_file "scan.pdf" (some "Totally_Bogus", some "raw") =
      process_one_file "scan.pdf" (none, some "raw") := by
  constructor
  · decide
  · rfl

/-- C9 amended: validity of a returned label is decided by a
case-insensitive match against the six known labels, so "Contract_Payment"
and "contract_payment" are both accepted and both lead to renaming and
completion — though the renamed file keeps the label's original casing, so
the case variants yield different file names; any label matching none of
the six case-insensitively is skipped with status
"Skipped - Invalid or no classification", the same status used when the
classification is missing. -/
theorem label_validity_case_insensitive (c r : String) :
    (valid_classifications.contains (str_lower c) = true →
      process_one_file "scan.pdf" (some c, some r) =
        FileAction.completed (c ++ ".pdf")) ∧
    (valid_classifications.contains (str_lower c) = false →
      process_one_file "scan.pdf" (some c, some r) =
        FileAction.skipped "Skipped - Invalid or no classification") ∧
    process_one_file "scan.pdf" (none, some r) =
      FileAction.skipped "Skipped - Invalid or no classification" := by
  have hpre : process_one_file "scan.pdf" (some c, some r) =
      (if some c = some "Unclassified - Poor image quality" ∧ (some r : Option String) = none then
        FileAction.completed (rename_target "scan.pdf" "Unclassified")
      else if !(valid_classifications.contains (str_lower c)) then
        FileAction.skipped "Skipped - Invalid or no classification"
      else FileAction.completed (rename_target "scan.pdf" c)) := rfl
  refine ⟨fun h => ?_, fun h => ?_, rfl⟩
  · rw [hpre, if_neg (by simp)]
    simp only [h, Bool.not_true, Bool.false_eq_true, if_false]
    rfl
  · rw [hpre, if_neg (by simp)]
    simp only [h, Bool.not_false, if_true]

/-- C9 witness: the lowercase-matching label "Contract_Payment" is accepted
and drives the rename. -/
theorem label_validity_case_insensitive_witness :
    process_one_file "scan.pdf" (some "Contract_Payment", some "raw") =
      FileAction.completed ("Contract_Payment" ++ ".pdf") :=
  (label_validity_case_insensitive "Contract_Payment" "raw").1 (by decide)

end DocClass
